import Mathlib

/-!
Verification of the terraform-provider-morpheus resource reconcilers
(helm spec template, workflow catalog item, Ansible Tower integration)
against their natural-language specification.

The Go source is shallowly embedded: Terraform state (the schema fields of
one resource instance) becomes a Lean structure, the JSON request bodies
become structures with Option fields for keys that are only conditionally
set, the SDK client becomes a record of pure functions returning an
ApiCall value that mirrors the Go (resp, err) pair, and each
resource lifecycle function becomes a Lean function over those types.
Machine integers are modelled as Nat/Int with explicit reduction mod 2^32
where the Go code relies on 32-bit overflow (the SHA-256 fragment).
-/

/-- Result of one SDK client call, mirroring the Go (resp, err) pair:
ok carries the decoded result; fail carries the optional response status
code (the Go code checks resp != nil && resp.StatusCode == 404, so a nil
response is statusCode none) and the error message. -/
inductive ApiCall (α : Type) where
  | ok (result : α)
  | fail (statusCode : Option Nat) (msg : String)
  deriving DecidableEq, Repr

/-- Outcome of a read/create/update lifecycle call: either the new
Terraform state or a diagnostic error message. -/
inductive ReadOutcome (σ : Type) where
  | ok (state : σ)
  | error (msg : String)
  deriving DecidableEq, Repr

/-- Outcome of a delete lifecycle call: success carries the identifier
left in state (delete clears it to "" on the success path), error carries
the diagnostic message. -/
inductive DeleteOutcome where
  | ok (id : String)
  | error (msg : String)
  deriving DecidableEq, Repr

/-- Modelled from the spec: identifiers are numeric, string-encoded
(the int64ToString helper of the repository, whose file is not under
src/). -/
def int64ToString (n : Int) : String := toString n

/-- Modelled from the spec: identifiers are numeric, string-encoded
(the intToString helper of the repository, whose file is not under
src/). -/
def intToString (n : Int) : String := toString n

/-! ## SHA-256, embedded from Go crypto/sha256 as used by the password
DiffSuppressFunc: h := sha256.New(); h.Write([]byte(new));
hex.EncodeToString(h.Sum(nil)). Bytes are Nat < 256, words are Nat
reduced mod 2^32. -/

/-- Right-rotation of a 32-bit word (input assumed < 2^32). -/
def rotr32 (x n : Nat) : Nat := ((x >>> n) ||| (x <<< (32 - n))) % 2 ^ 32

/-- Bitwise complement of a 32-bit word. -/
def not32 (x : Nat) : Nat := x ^^^ 0xFFFFFFFF

/-- The 64 SHA-256 round constants. -/
def sha256K : List Nat :=
  [0x428A2F98, 0x71374491, 0xB5C0FBCF, 0xE9B5DBA5, 0x3956C25B, 0x59F111F1,
   0x923F82A4, 0xAB1C5ED5, 0xD807AA98, 0x12835B01, 0x243185BE, 0x550C7DC3,
   0x72BE5D74, 0x80DEB1FE, 0x9BDC06A7, 0xC19BF174, 0xE49B69C1, 0xEFBE4786,
   0x0FC19DC6, 0x240CA1CC, 0x2DE92C6F, 0x4A7484AA, 0x5CB0A9DC, 0x76F988DA,
   0x983E5152, 0xA831C66D, 0xB00327C8, 0xBF597FC7, 0xC6E00BF3, 0xD5A79147,
   0x06CA6351, 0x14292967, 0x27B70A85, 0x2E1B2138, 0x4D2C6DFC, 0x53380D13,
   0x650A7354, 0x766A0ABB, 0x81C2C92E, 0x92722C85, 0xA2BFE8A1, 0xA81A664B,
   0xC24B8B70, 0xC76C51A3, 0xD192E819, 0xD6990624, 0xF40E3585, 0x106AA070,
   0x19A4C116, 0x1E376C08, 0x2748774C, 0x34B0BCB5, 0x391C0CB3, 0x4ED8AA4A,
   0x5B9CCA4F, 0x682E6FF3, 0x748F82EE, 0x78A5636F, 0x84C87814, 0x8CC70208,
   0x90BEFFFA, 0xA4506CEB, 0xBEF9A3F7, 0xC67178F2]

/-- The SHA-256 working variables (a..h), each a 32-bit word. -/
structure Sha256St where
  a : Nat
  b : Nat
  c : Nat
  d : Nat
  e : Nat
  f : Nat
  g : Nat
  h : Nat
  deriving DecidableEq, Repr

/-- The SHA-256 initial hash value. -/
def sha256H0 : Sha256St :=
  ⟨0x6A09E667, 0xBB67AE85, 0x3C6EF372, 0xA54FF53A,
   0x510E527F, 0x9B05688C, 0x1F83D9AB, 0x5BE0CD19⟩

/-- SHA-256 padding: append 0x80, zeros, then the 64-bit big-endian bit
length, reaching a multiple of 64 bytes. -/
def sha256Pad (msg : List Nat) : List Nat :=
  let L := msg.length
  let k := (120 - (L + 1) % 64) % 64
  let lenBytes := (List.range 8).map fun i => ((8 * L) >>> (8 * (7 - i))) &&& 255
  msg ++ [0x80] ++ List.replicate k 0 ++ lenBytes

/-- The sixteen 32-bit big-endian words of one 64-byte block. -/
def blockWords (blk : List Nat) : List Nat :=
  (List.range 16).map fun i =>
    (blk.getD (4 * i) 0) <<< 24 ||| (blk.getD (4 * i + 1) 0) <<< 16 |||
      (blk.getD (4 * i + 2) 0) <<< 8 ||| blk.getD (4 * i + 3) 0

/-- The 64-entry SHA-256 message schedule of one block. -/
def msgSchedule (blk : List Nat) : List Nat :=
  (List.range 48).foldl
    (fun w _ =>
      let i := w.length
      let s0 := rotr32 (w.getD (i - 15) 0) 7 ^^^ rotr32 (w.getD (i - 15) 0) 18 ^^^
        (w.getD (i - 15) 0) >>> 3
      let s1 := rotr32 (w.getD (i - 2) 0) 17 ^^^ rotr32 (w.getD (i - 2) 0) 19 ^^^
        (w.getD (i - 2) 0) >>> 10
      w ++ [(w.getD (i - 16) 0 + s0 + w.getD (i - 7) 0 + s1) % 2 ^ 32])
    (blockWords blk)

/-- One SHA-256 compression round. -/
def sha256Round (w : List Nat) (s : Sha256St) (i : Nat) : Sha256St :=
  let S1 := rotr32 s.e 6 ^^^ rotr32 s.e 11 ^^^ rotr32 s.e 25
  let ch := (s.e &&& s.f) ^^^ (not32 s.e &&& s.g)
  let t1 := (s.h + S1 + ch + sha256K.getD i 0 + w.getD i 0) % 2 ^ 32
  let S0 := rotr32 s.a 2 ^^^ rotr32 s.a 13 ^^^ rotr32 s.a 22
  let mj := (s.a &&& s.b) ^^^ (s.a &&& s.c) ^^^ (s.b &&& s.c)
  let t2 := (S0 + mj) % 2 ^ 32
  ⟨(t1 + t2) % 2 ^ 32, s.a, s.b, s.c, (s.d + t1) % 2 ^ 32, s.e, s.f, s.g⟩

/-- SHA-256 compression of one 64-byte block into the running hash. -/
def sha256Compress (H : Sha256St) (blk : List Nat) : Sha256St :=
  let w := msgSchedule blk
  let s := (List.range 64).foldl (sha256Round w) H
  ⟨(H.a + s.a) % 2 ^ 32, (H.b + s.b) % 2 ^ 32, (H.c + s.c) % 2 ^ 32,
   (H.d + s.d) % 2 ^ 32, (H.e + s.e) % 2 ^ 32, (H.f + s.f) % 2 ^ 32,
   (H.g + s.g) % 2 ^ 32, (H.h + s.h) % 2 ^ 32⟩

/-- Big-endian bytes of a 32-bit word. -/
def wordBytes (w : Nat) : List Nat :=
  [(w >>> 24) &&& 255, (w >>> 16) &&& 255, (w >>> 8) &&& 255, w &&& 255]

/-- SHA-256 digest (32 bytes) of a byte string. -/
def sha256Bytes (msg : List Nat) : List Nat :=
  let padded := sha256Pad msg
  let blocks := (List.range (padded.length / 64)).map
    fun i => (padded.drop (64 * i)).take 64
  let Hf := blocks.foldl sha256Compress sha256H0
  wordBytes Hf.a ++ wordBytes Hf.b ++ wordBytes Hf.c ++ wordBytes Hf.d ++
    wordBytes Hf.e ++ wordBytes Hf.f ++ wordBytes Hf.g ++ wordBytes Hf.h

/-- UTF-8 encoding of one code point (the Go byte conversion of a string). -/
def utf8Bytes (c : Nat) : List Nat :=
  if c < 0x80 then [c]
  else if c < 0x800 then [0xC0 ||| (c >>> 6), 0x80 ||| (c &&& 0x3F)]
  else if c < 0x10000 then
    [0xE0 ||| (c >>> 12), 0x80 ||| ((c >>> 6) &&& 0x3F), 0x80 ||| (c &&& 0x3F)]
  else
    [0xF0 ||| (c >>> 18), 0x80 ||| ((c >>> 12) &&& 0x3F),
     0x80 ||| ((c >>> 6) &&& 0x3F), 0x80 ||| (c &&& 0x3F)]

/-- The UTF-8 bytes of a string (the Go byte conversion). -/
def strBytes (s : String) : List Nat :=
  (s.data.map fun c => utf8Bytes c.toNat).flatten

/-- Lowercase hex digit for a nibble (Go encoding/hex alphabet). -/
def hexChar (n : Nat) : Char :=
  if n < 10 then Char.ofNat (48 + n) else Char.ofNat (87 + n)

/-- Two lowercase hex digits of a byte, high nibble first. -/
def hexByte (b : Nat) : List Char := [hexChar (b / 16), hexChar (b % 16)]

/-- Hex digits of a byte list. -/
def hexChars : List Nat → List Char
  | [] => []
  | b :: bs => hexByte b ++ hexChars bs

/-- Go hex.EncodeToString: lowercase hex encoding of a byte list. -/
def hexEncodeBytes (bs : List Nat) : String := ⟨hexChars bs⟩

/-- The hex-encoded SHA-256 digest of a string, exactly the value the
DiffSuppressFunc computes from the newly supplied plaintext. -/
def sha256Hex (s : String) : String := hexEncodeBytes (sha256Bytes (strBytes s))

/-- ASCII simple case folding of one character (models Go
strings.EqualFold restricted to ASCII; every value compared here is an
ASCII hex digest). -/
def foldChar (c : Char) : Char :=
  if 'A' ≤ c ∧ c ≤ 'Z' then Char.ofNat (c.toNat + 32) else c

/-- Go strings.EqualFold on ASCII strings: equality up to case folding. -/
def equalFold (a b : String) : Bool := a.data.map foldChar == b.data.map foldChar

/-- The password DiffSuppressFunc of the Ansible Tower integration
(resource_workflow_catalog_item.go, password schema entry): hash the new
plaintext with SHA-256, hex-encode, and compare case-insensitively with
the stored old value. -/
def passwordDiffSuppress (oldVal newVal : String) : Bool :=
  equalFold oldVal (sha256Hex newVal)

/-! ## Helm spec template (src/unnamed/part_000) -/

/-- Terraform state of one morpheus_helm_spec_template resource instance
(schema of resourceHelmSpecTemplate; the id attribute is computed, the
rest are the user-settable attributes). -/
structure HelmState where
  id : String
  name : String
  source_type : String
  spec_content : String
  spec_path : String
  repository_id : Int
  version_ref : String
  deriving DecidableEq, Repr

/-- The sourceOptions map built by resourceHelmSpecTemplateCreate (and
identically by Update): keys only conditionally present are Options. -/
structure HelmFilePayload where
  sourceType : String
  content : Option String
  contentPath : Option String
  contentRef : Option String
  repository : Option Int
  deriving DecidableEq, Repr

/-- The specTemplate request body of resourceHelmSpecTemplateCreate /
Update: name, file (sourceOptions) and type code "helm". -/
structure HelmPayload where
  name : String
  file : HelmFilePayload
  typeCode : String
  deriving DecidableEq, Repr

/-- The request body built by resourceHelmSpecTemplateCreate (lines
78-109 of the source; Update builds the identical body): the switch on
source_type fills content/contentPath for local and url, and
contentPath/contentRef/repository.id for repository. -/
def helmSpecTemplatePayload (s : HelmState) : HelmPayload :=
  let base : HelmFilePayload :=
    { sourceType := s.source_type, content := none, contentPath := none,
      contentRef := none, repository := none }
  let file :=
    if s.source_type = "local" then
      { base with content := some s.spec_content, contentPath := some s.spec_path }
    else if s.source_type = "url" then
      { base with content := some s.spec_content, contentPath := some s.spec_path }
    else if s.source_type = "repository" then
      { base with contentPath := some s.spec_path, contentRef := some s.version_ref,
                  repository := some s.repository_id }
    else base
  { name := s.name, file := file, typeCode := "helm" }

/-- The file object of the decoded HelmSpecTemplate response (struct
HelmSpecTemplate in the source; Contentref/Contentpath are JSON values,
modelled as strings). -/
structure HelmRemoteFile where
  sourceType : String
  content : String
  contentPath : String
  contentRef : String
  repositoryId : Int
  deriving DecidableEq, Repr

/-- The decoded specTemplate of a successful response, restricted to the
fields the read function consumes. -/
structure HelmRemote where
  id : Int
  name : String
  file : HelmRemoteFile
  deriving DecidableEq, Repr

/-- The store-resource-data tail of resourceHelmSpecTemplateRead (lines
165-181): set id, name and source_type, then switch on the remote
sourceType — local fills spec_content, url fills spec_path, git fills
spec_path, repository_id and version_ref and renames the type back to
repository; fields not set keep their prior state value. -/
def helmReadApply (st : HelmState) (r : HelmRemote) : HelmState :=
  let st1 := { st with id := intToString r.id, name := r.name,
                       source_type := r.file.sourceType }
  if r.file.sourceType = "local" then
    { st1 with source_type := "local", spec_content := r.file.content }
  else if r.file.sourceType = "url" then
    { st1 with source_type := "url", spec_path := r.file.contentPath }
  else if r.file.sourceType = "git" then
    { st1 with source_type := "repository", spec_path := r.file.contentPath,
               repository_id := r.file.repositoryId, version_ref := r.file.contentRef }
  else st1

/-- The SDK client methods the helm spec template resource calls,
as pure functions (the remote service is an external collaborator). -/
structure HelmClient where
  createSpecTemplate : HelmPayload → ApiCall Int
  getSpecTemplate : String → ApiCall HelmRemote
  findSpecTemplateByName : String → ApiCall HelmRemote
  deleteSpecTemplate : String → ApiCall Unit

/-- Shared response handling of resourceHelmSpecTemplateRead (lines
146-164): a failure whose response carries status 404 clears the id and
returns success; any other failure is returned as an error; a success is
decoded and stored. -/
def helmHandleResp (st : HelmState) (call : ApiCall HelmRemote) : ReadOutcome HelmState :=
  match call with
  | .fail sc e => if sc = some 404 then .ok { st with id := "" } else .error e
  | .ok r => .ok (helmReadApply st r)

/-- resourceHelmSpecTemplateRead (lines 126-184): look up by name when
the id is empty and a name is present, by id when an id is present, and
fail without a remote call when neither is available. -/
def resourceHelmSpecTemplateRead (cl : HelmClient) (st : HelmState) : ReadOutcome HelmState :=
  if st.id = "" ∧ st.name ≠ "" then helmHandleResp st (cl.findSpecTemplateByName st.name)
  else if st.id ≠ "" then helmHandleResp st (cl.getSpecTemplate st.id)
  else .error "Spec template cannot be read without name or id"

/-- resourceHelmSpecTemplateCreate (lines 72-124): build the payload,
create remotely, on failure report the error, on success set the id and
re-read (the diagnostics of that read are discarded, so a failed re-read
leaves the state as set by create). -/
def resourceHelmSpecTemplateCreate (cl : HelmClient) (s : HelmState) : ReadOutcome HelmState :=
  match cl.createSpecTemplate (helmSpecTemplatePayload s) with
  | .fail _ e => .error e
  | .ok newId =>
    let s1 := { s with id := int64ToString newId }
    match resourceHelmSpecTemplateRead cl s1 with
    | .ok s2 => .ok s2
    | .error _ => .ok s1

/-- resourceHelmSpecTemplateDelete (lines 235-256): a failure with
status 404 returns success with the id left untouched; any other
failure is an error; a success clears the id. -/
def resourceHelmSpecTemplateDelete (cl : HelmClient) (st : HelmState) : DeleteOutcome :=
  match cl.deleteSpecTemplate st.id with
  | .fail sc e => if sc = some 404 then .ok st.id else .error e
  | .ok _ => .ok ""

/-- Modelled from the spec: a faithful remote server stores the created
specTemplate and a later read returns exactly the stored fields (absent
payload keys read back as zero values); the git case of the read switch shows
the server reports source type repository as git, so the gitMapped flag
covers both a normalizing and an echoing server. -/
def helmEcho (rid : Int) (gitMapped : Bool) (s : HelmState) : HelmRemote :=
  let p := helmSpecTemplatePayload s
  { id := rid, name := p.name,
    file := { sourceType := if gitMapped ∧ p.file.sourceType = "repository" then "git"
                            else p.file.sourceType,
              content := p.file.content.getD "",
              contentPath := p.file.contentPath.getD "",
              contentRef := p.file.contentRef.getD "",
              repositoryId := p.file.repository.getD 0 } }

/-- A client backed by the faithful echo server for one helm create/read
round trip: create assigns id rid, reads return the echo of s. -/
def helmEchoClient (rid : Int) (gitMapped : Bool) (s : HelmState) : HelmClient :=
  { createSpecTemplate := fun _ => .ok rid,
    getSpecTemplate := fun _ => .ok (helmEcho rid gitMapped s),
    findSpecTemplateByName := fun _ => .ok (helmEcho rid gitMapped s),
    deleteSpecTemplate := fun _ => .ok () }

/-! ## Workflow catalog item (src/morpheus/resource_workflow_catalog_item.go) -/

/-- Terraform state of one morpheus_workflow_catalog_item resource
instance (schema of resourceWorkflowCatalogItem). -/
structure CatalogState where
  id : String
  name : String
  labels : List String
  description : String
  category : String
  enabled : Bool
  featured : Bool
  workflow_id : Int
  context_type : String
  content : String
  option_type_ids : List Int
  logo_image_name : String
  logo_image_path : String
  dark_logo_image_name : String
  dark_logo_image_path : String
  visibility : String
  form_id : Int
  deriving DecidableEq, Repr

/-- The catalogItemType request body built by
resourceWorkflowCatalogItemCreate / Update. iconPath is set by create
only; formType and the form sub-object appear only when form_id > 0. -/
structure CatalogPayload where
  name : String
  description : String
  category : String
  enabled : Bool
  featured : Bool
  itemType : String
  iconPath : Option String
  context : String
  optionTypes : List Int
  content : String
  visibility : String
  labels : List String
  workflowId : Int
  form : Option Int
  deriving DecidableEq, Repr

/-- The request body of resourceWorkflowCatalogItemCreate (lines
147-184): every schema attribute is sent, iconPath is the constant
custom, the workflow id is a nested sub-object, and the form sub-object
is attached only when form_id > 0. -/
def catalogItemCreatePayload (s : CatalogState) : CatalogPayload :=
  { name := s.name, description := s.description, category := s.category,
    enabled := s.enabled, featured := s.featured, itemType := "workflow",
    iconPath := some "custom", context := s.context_type,
    optionTypes := s.option_type_ids, content := s.content,
    visibility := s.visibility, labels := s.labels, workflowId := s.workflow_id,
    form := if s.form_id > 0 then some s.form_id else none }

/-- The request body of resourceWorkflowCatalogItemUpdate (lines
308-343): the same full attribute list as create (iconPath is not set
by update), independent of any change detection. -/
def catalogItemUpdatePayload (s : CatalogState) : CatalogPayload :=
  { name := s.name, description := s.description, category := s.category,
    enabled := s.enabled, featured := s.featured, itemType := "workflow",
    iconPath := none, context := s.context_type,
    optionTypes := s.option_type_ids, content := s.content,
    visibility := s.visibility, labels := s.labels, workflowId := s.workflow_id,
    form := if s.form_id > 0 then some s.form_id else none }

/-- The decoded catalog item of a successful response, restricted to the
fields the read function consumes. -/
structure CatalogRemote where
  id : Int
  name : String
  labels : List String
  description : String
  category : String
  enabled : Bool
  featured : Bool
  optionTypes : List Int
  content : String
  context : String
  visibility : String
  formId : Int
  workflowId : Int
  imagePath : String
  darkImagePath : String
  deriving DecidableEq, Repr

/-- Replace the first occurrence of old in a character list (Go
strings.Replace with n = 1). -/
def replaceFirstChars (oldPat newPat : List Char) : List Char → List Char
  | [] => []
  | c :: rest =>
    if (c :: rest).take oldPat.length = oldPat then newPat ++ (c :: rest).drop oldPat.length
    else c :: replaceFirstChars oldPat newPat rest

/-- The logo-name recovery of resourceWorkflowCatalogItemRead (lines
295-300): the last slash-separated segment of the remote image path with
the first _original removed. -/
def imageNameFromPath (p : String) : String :=
  let parts := p.splitOn "/"
  ⟨replaceFirstChars "_original".data [] (parts.getLastD "").data⟩

/-- The store-resource-data tail of resourceWorkflowCatalogItemRead
(lines 272-301): every attribute is overwritten from the remote entity;
the logo image names are recovered from the remote image paths. -/
def catalogReadApply (st : CatalogState) (r : CatalogRemote) : CatalogState :=
  { st with id := intToString r.id, name := r.name, labels := r.labels,
            description := r.description, category := r.category,
            enabled := r.enabled, featured := r.featured,
            option_type_ids := r.optionTypes, content := r.content,
            context_type := r.context, visibility := r.visibility,
            form_id := r.formId, workflow_id := r.workflowId,
            logo_image_name := imageNameFromPath r.imagePath,
            dark_logo_image_name := imageNameFromPath r.darkImagePath }

/-- One morpheus.FilePayload of the logo upload side channel. -/
structure FilePayload where
  parameterName : String
  fileName : String
  fileContent : List Nat
  deriving DecidableEq, Repr

/-- The SDK client methods the workflow catalog item resource calls. -/
structure CatalogClient where
  createCatalogItem : CatalogPayload → ApiCall Int
  getCatalogItem : String → ApiCall CatalogRemote
  findCatalogItemByName : String → ApiCall CatalogRemote
  updateCatalogItemLogo : Int → List FilePayload → ApiCall Unit
  deleteCatalogItem : String → ApiCall Unit

/-- Shared response handling of resourceWorkflowCatalogItemRead (lines
256-266): 404 clears the id and succeeds, other failures are errors. -/
def catalogHandleResp (st : CatalogState) (call : ApiCall CatalogRemote) :
    ReadOutcome CatalogState :=
  match call with
  | .fail sc e => if sc = some 404 then .ok { st with id := "" } else .error e
  | .ok r => .ok (catalogReadApply st r)

/-- resourceWorkflowCatalogItemRead (lines 237-302): the same
id-then-name dispatch as the helm spec template. -/
def resourceWorkflowCatalogItemRead (cl : CatalogClient) (st : CatalogState) :
    ReadOutcome CatalogState :=
  if st.id = "" ∧ st.name ≠ "" then catalogHandleResp st (cl.findCatalogItemByName st.name)
  else if st.id ≠ "" then catalogHandleResp st (cl.getCatalogItem st.id)
  else .error "Catalog Item cannot be read without name or id"

/-- The logo FilePayload list built by resourceWorkflowCatalogItemCreate
(lines 195-222): a logo entry when both path and name are nonempty, then
a darkLogo entry likewise; a failed file read fails the whole create.
fs models os.ReadFile. -/
def catalogCreateFilePayloads (fs : String → Except String (List Nat)) (s : CatalogState) :
    Except String (List FilePayload) :=
  let first : Except String (List FilePayload) :=
    if s.logo_image_path ≠ "" ∧ s.logo_image_name ≠ "" then
      match fs s.logo_image_path with
      | .error e => .error e
      | .ok data => .ok [⟨"logo", s.logo_image_name, data⟩]
    else .ok []
  match first with
  | .error e => .error e
  | .ok l1 =>
    if s.dark_logo_image_path ≠ "" ∧ s.dark_logo_image_name ≠ "" then
      match fs s.dark_logo_image_path with
      | .error e => .error e
      | .ok data => .ok (l1 ++ [⟨"darkLogo", s.dark_logo_image_name, data⟩])
    else .ok l1

/-- The logo FilePayload list built by resourceWorkflowCatalogItemUpdate
(lines 354-381): an entry is built only when the path or name of that
logo changed (d.HasChange, passed in as booleans computed by the host
runtime from desired vs prior state). -/
def catalogUpdateFilePayloads (fs : String → Except String (List Nat)) (s : CatalogState)
    (hcLogoPath hcLogoName hcDarkPath hcDarkName : Bool) :
    Except String (List FilePayload) :=
  let first : Except String (List FilePayload) :=
    if hcLogoPath || hcLogoName then
      match fs s.logo_image_path with
      | .error e => .error e
      | .ok data => .ok [⟨"logo", s.logo_image_name, data⟩]
    else .ok []
  match first with
  | .error e => .error e
  | .ok l1 =>
    if hcDarkPath || hcDarkName then
      match fs s.dark_logo_image_path with
      | .error e => .error e
      | .ok data => .ok (l1 ++ [⟨"darkLogo", s.dark_logo_image_name, data⟩])
    else .ok l1

/-- resourceWorkflowCatalogItemCreate (lines 141-235): create remotely,
build the logo payloads (a failed file read fails the create), then
upload the logos — a failed upload is only logged (its result is
discarded) — set the id and re-read, discarding the diagnostics
of that read. -/
def resourceWorkflowCatalogItemCreate (cl : CatalogClient)
    (fs : String → Except String (List Nat)) (s : CatalogState) : ReadOutcome CatalogState :=
  match cl.createCatalogItem (catalogItemCreatePayload s) with
  | .fail _ e => .error e
  | .ok newId =>
    match catalogCreateFilePayloads fs s with
    | .error e => .error e
    | .ok pls =>
      let _logoResp := cl.updateCatalogItemLogo newId pls
      let s1 := { s with id := int64ToString newId }
      match resourceWorkflowCatalogItemRead cl s1 with
      | .ok s2 => .ok s2
      | .error _ => .ok s1

/-- resourceWorkflowCatalogItemDelete (lines 395-416): both the 404
branch and the general failure branch return diag.FromErr(err), so every
failure is an error; a success clears the id. -/
def resourceWorkflowCatalogItemDelete (cl : CatalogClient) (st : CatalogState) :
    DeleteOutcome :=
  match cl.deleteCatalogItem st.id with
  | .fail sc e => if sc = some 404 then .error e else .error e
  | .ok _ => .ok ""

/-- Modelled from the spec: a faithful remote server stores the created
catalog item and a later read returns the stored fields (an absent form
reads back as id 0; the server-side image paths are server-assigned). -/
def catalogEcho (rid : Int) (s : CatalogState) : CatalogRemote :=
  let p := catalogItemCreatePayload s
  { id := rid, name := p.name, labels := p.labels, description := p.description,
    category := p.category, enabled := p.enabled, featured := p.featured,
    optionTypes := p.optionTypes, content := p.content, context := p.context,
    visibility := p.visibility, formId := p.form.getD 0, workflowId := p.workflowId,
    imagePath := "", darkImagePath := "" }

/-- A client backed by the faithful echo server for one catalog item
create/read round trip. -/
def catalogEchoClient (rid : Int) (s : CatalogState) : CatalogClient :=
  { createCatalogItem := fun _ => .ok rid,
    getCatalogItem := fun _ => .ok (catalogEcho rid s),
    findCatalogItemByName := fun _ => .ok (catalogEcho rid s),
    updateCatalogItemLogo := fun _ _ => .ok (),
    deleteCatalogItem := fun _ => .ok () }

/-! ## Ansible Tower integration (second file inside
src/morpheus/resource_workflow_catalog_item.go) -/

/-- Terraform state of one Ansible Tower integration resource instance
(schema of resourceAnsibleTowerIntegration). -/
structure IntegrationState where
  id : String
  name : String
  enabled : Bool
  url : String
  username : String
  password : String
  credential_id : Int
  deriving DecidableEq, Repr

/-- The credential sub-object of the integration request body. -/
structure CredPayload where
  ctype : String
  cid : Option Int
  deriving DecidableEq, Repr

/-- The integration request body built by
resourceAnsibleTowerIntegrationCreate / Update: keys only conditionally
set are Options. -/
structure IntegrationPayload where
  name : String
  enabled : Bool
  itype : String
  serviceVersion : String
  serviceUrl : String
  credential : Option CredPayload
  serviceUsername : Option String
  servicePassword : Option String
  deriving DecidableEq, Repr

/-- The request body of resourceAnsibleTowerIntegrationCreate (lines
501-527). In the nonzero credential_id branch the source builds a local
credential map of type username-password and id credential_id but then
assigns it into itself (credential["credential"] = credential) instead
of into the integration map, so the built body carries no credential key
at all in that branch; the zero branch attaches a local-type credential
and the inline serviceUsername/servicePassword. -/
def ansibleTowerCreatePayload (s : IntegrationState) : IntegrationPayload :=
  if s.credential_id ≠ 0 then
    { name := s.name, enabled := s.enabled, itype := "ansibleTower",
      serviceVersion := "v2", serviceUrl := s.url, credential := none,
      serviceUsername := none, servicePassword := none }
  else
    { name := s.name, enabled := s.enabled, itype := "ansibleTower",
      serviceVersion := "v2", serviceUrl := s.url,
      credential := some { ctype := "local", cid := none },
      serviceUsername := some s.username, servicePassword := some s.password }

/-- The request body of resourceAnsibleTowerIntegrationUpdate (lines
598-627): the credential sub-object is attached in both branches; in the
inline branch serviceUsername and servicePassword are sent only when the
corresponding attribute changed (d.HasChange, passed in as booleans). -/
def ansibleTowerUpdatePayload (s : IntegrationState) (hcUsername hcPassword : Bool) :
    IntegrationPayload :=
  if s.credential_id ≠ 0 then
    { name := s.name, enabled := s.enabled, itype := "ansibleTower",
      serviceVersion := "v2", serviceUrl := s.url,
      credential := some { ctype := "username-password", cid := some s.credential_id },
      serviceUsername := none, servicePassword := none }
  else
    { name := s.name, enabled := s.enabled, itype := "ansibleTower",
      serviceVersion := "v2", serviceUrl := s.url,
      credential := some { ctype := "local", cid := none },
      serviceUsername := if hcUsername then some s.username else none,
      servicePassword := if hcPassword then some s.password else none }

/-- The decoded integration of a successful response, restricted to the
fields the read function consumes. -/
structure IntegrationRemote where
  id : Int
  name : String
  enabled : Bool
  url : String
  username : String
  passwordHash : String
  credentialId : Int
  deriving DecidableEq, Repr

/-- The store-resource-data tail of resourceAnsibleTowerIntegrationRead
(lines 580-589): id, name, enabled and url are always set; with a zero
remote credential id the username and the server-stored password hash
are written into username and password, otherwise only credential_id is
written. -/
def integrationReadApply (st : IntegrationState) (r : IntegrationRemote) :
    IntegrationState :=
  let st1 := { st with id := int64ToString r.id, name := r.name,
                       enabled := r.enabled, url := r.url }
  if r.credentialId = 0 then
    { st1 with username := r.username, password := r.passwordHash }
  else
    { st1 with credential_id := r.credentialId }

/-- The SDK client methods the Ansible Tower integration resource calls. -/
structure IntegrationClient where
  createIntegration : IntegrationPayload → ApiCall Int
  getIntegration : String → ApiCall IntegrationRemote
  findIntegrationByName : String → ApiCall IntegrationRemote
  deleteIntegration : String → ApiCall Unit

/-- Shared response handling of resourceAnsibleTowerIntegrationRead
(lines 564-574): 404 clears the id and succeeds, other failures are
errors. -/
def integrationHandleResp (st : IntegrationState) (call : ApiCall IntegrationRemote) :
    ReadOutcome IntegrationState :=
  match call with
  | .fail sc e => if sc = some 404 then .ok { st with id := "" } else .error e
  | .ok r => .ok (integrationReadApply st r)

/-- resourceAnsibleTowerIntegrationRead (lines 545-592): the same
id-then-name dispatch as the other resources. -/
def resourceAnsibleTowerIntegrationRead (cl : IntegrationClient) (st : IntegrationState) :
    ReadOutcome IntegrationState :=
  if st.id = "" ∧ st.name ≠ "" then integrationHandleResp st (cl.findIntegrationByName st.name)
  else if st.id ≠ "" then integrationHandleResp st (cl.getIntegration st.id)
  else .error "Integration cannot be read without name or id"

/-- resourceAnsibleTowerIntegrationCreate (lines 495-543): build the
payload, create remotely, set the id and re-read, discarding the
diagnostics of that read. -/
def resourceAnsibleTowerIntegrationCreate (cl : IntegrationClient) (s : IntegrationState) :
    ReadOutcome IntegrationState :=
  match cl.createIntegration (ansibleTowerCreatePayload s) with
  | .fail _ e => .error e
  | .ok newId =>
    let s1 := { s with id := int64ToString newId }
    match resourceAnsibleTowerIntegrationRead cl s1 with
    | .ok s2 => .ok s2
    | .error _ => .ok s1

/-- resourceAnsibleTowerIntegrationDelete (lines 644-665): both the 404
branch and the general failure branch return diag.FromErr(err), so every
failure is an error; a success clears the id. -/
def resourceAnsibleTowerIntegrationDelete (cl : IntegrationClient) (st : IntegrationState) :
    DeleteOutcome :=
  match cl.deleteIntegration st.id with
  | .fail sc e => if sc = some 404 then .error e else .error e
  | .ok _ => .ok ""

/-- Modelled from the spec: a faithful remote server stores the created
integration and a later read returns the stored fields; the secret is
stored only as its digest (spec section 4.1 side-channel), so the
returned password hash is the hex SHA-256 of the stored plaintext, and
absent payload keys read back as zero values. -/
def integrationEcho (rid : Int) (s : IntegrationState) : IntegrationRemote :=
  let p := ansibleTowerCreatePayload s
  { id := rid, name := p.name, enabled := p.enabled, url := p.serviceUrl,
    username := p.serviceUsername.getD "",
    passwordHash := sha256Hex (p.servicePassword.getD ""),
    credentialId := ((p.credential.bind CredPayload.cid).getD 0) }

/-- A client backed by the faithful echo server for one integration
create/read round trip. -/
def integrationEchoClient (rid : Int) (s : IntegrationState) : IntegrationClient :=
  { createIntegration := fun _ => .ok rid,
    getIntegration := fun _ => .ok (integrationEcho rid s),
    findIntegrationByName := fun _ => .ok (integrationEcho rid s),
    deleteIntegration := fun _ => .ok () }

/-! ## Helper lemmas about the digest encoding -/

lemma hexChars_length (bs : List Nat) : (hexChars bs).length = 2 * bs.length := by
  induction bs with
  | nil => rfl
  | cons b bs ih => simp [hexChars, hexByte, ih]; ring

lemma wordBytes_length (w : Nat) : (wordBytes w).length = 4 := rfl

lemma sha256Bytes_length (msg : List Nat) : (sha256Bytes msg).length = 32 := by
  simp [sha256Bytes, wordBytes]

lemma and255_lt (x : Nat) : x &&& 255 < 256 := by
  have h := Nat.and_le_right (n := x) (m := 255)
  omega

lemma mem_wordBytes_lt {b w : Nat} (h : b ∈ wordBytes w) : b < 256 := by
  simp only [wordBytes, List.mem_cons, List.not_mem_nil, or_false] at h
  rcases h with h | h | h | h <;> subst h <;> exact and255_lt _

lemma mem_sha256Bytes_lt (msg : List Nat) : ∀ b ∈ sha256Bytes msg, b < 256 := by
  intro b hb
  simp only [sha256Bytes, List.mem_append] at hb
  rcases hb with ((((((h | h) | h) | h) | h) | h) | h) | h <;> exact mem_wordBytes_lt h

lemma foldChar_hexChar {n : Nat} (h : n < 16) : foldChar (hexChar n) = hexChar n := by
  interval_cases n <;> decide

lemma map_foldChar_hexChars {bs : List Nat} (h : ∀ b ∈ bs, b < 256) :
    (hexChars bs).map foldChar = hexChars bs := by
  induction bs with
  | nil => rfl
  | cons b bs ih =>
    have hb : b < 256 := h b (List.mem_cons_self b bs)
    have h1 : b / 16 < 16 := Nat.div_lt_of_lt_mul (by omega)
    have h2 : b % 16 < 16 := Nat.mod_lt b (by omega)
    simp [hexChars, hexByte, foldChar_hexChar h1, foldChar_hexChar h2,
      ih fun x hx => h x (List.mem_cons_of_mem b hx)]

lemma equalFold_hexEncode {b1 b2 : List Nat} (h1 : ∀ b ∈ b1, b < 256)
    (h2 : ∀ b ∈ b2, b < 256) (hne : hexEncodeBytes b1 ≠ hexEncodeBytes b2) :
    equalFold (hexEncodeBytes b1) (hexEncodeBytes b2) = false := by
  have hd : hexChars b1 ≠ hexChars b2 := by
    intro hc
    exact hne (congrArg (fun l => String.mk l) hc)
  show ((hexChars b1).map foldChar == (hexChars b2).map foldChar) = false
  rw [map_foldChar_hexChars h1, map_foldChar_hexChars h2]
  exact beq_eq_false_iff_ne.mpr hd

lemma equalFold_self (s : String) : equalFold s s = true := by
  simp [equalFold]

/-! ## Concrete clients and states used by the witnesses -/

/-- A helm client whose every call fails with the given status and
message. -/
def helmFailClient (sc : Option Nat) (e : String) : HelmClient :=
  { createSpecTemplate := fun _ => .fail sc e,
    getSpecTemplate := fun _ => .fail sc e,
    findSpecTemplateByName := fun _ => .fail sc e,
    deleteSpecTemplate := fun _ => .fail sc e }

/-- A catalog item client whose every call fails with the given status
and message. -/
def catalogFailClient (sc : Option Nat) (e : String) : CatalogClient :=
  { createCatalogItem := fun _ => .fail sc e,
    getCatalogItem := fun _ => .fail sc e,
    findCatalogItemByName := fun _ => .fail sc e,
    updateCatalogItemLogo := fun _ _ => .fail sc e,
    deleteCatalogItem := fun _ => .fail sc e }

/-- An integration client whose every call fails with the given status
and message. -/
def integrationFailClient (sc : Option Nat) (e : String) : IntegrationClient :=
  { createIntegration := fun _ => .fail sc e,
    getIntegration := fun _ => .fail sc e,
    findIntegrationByName := fun _ => .fail sc e,
    deleteIntegration := fun _ => .fail sc e }

/-- An example helm spec template state with an id. -/
def exHelm : HelmState :=
  { id := "7", name := "tmpl", source_type := "local", spec_content := "c",
    spec_path := "p", repository_id := 1, version_ref := "main" }

/-- An example catalog item state with an id. -/
def exCatalog : CatalogState :=
  { id := "8", name := "item", labels := ["a"], description := "d",
    category := "cat", enabled := true, featured := false, workflow_id := 2,
    context_type := "instance", content := "md", option_type_ids := [4],
    logo_image_name := "", logo_image_path := "", dark_logo_image_name := "",
    dark_logo_image_path := "", visibility := "public", form_id := 0 }

/-- An example Ansible Tower integration state with an id and inline
credentials. -/
def exIntegration : IntegrationState :=
  { id := "9", name := "tower", enabled := true, url := "https://tower",
    username := "bob", password := "pw", credential_id := 0 }


/-! ## Claims -/

/-- Claim C2: the password diff-suppression predicate computes the
fixed-length (64 hex characters) SHA-256 hex digest of the newly
supplied plaintext and compares it case-insensitively to the stored
value: for a stored digest D of S it suppresses (D, S), and for any
plaintext whose digest differs from D it does not suppress. -/
theorem spec_c2_password_diff_suppression :
    (∀ S : String, passwordDiffSuppress (sha256Hex S) S = true) ∧
    (∀ D S Sp : String, D = sha256Hex S → sha256Hex Sp ≠ D →
      passwordDiffSuppress D Sp = false) ∧
    (∀ S : String, (sha256Hex S).length = 64) := by
  refine ⟨fun S => equalFold_self _, fun D S Sp hD hne => ?_, fun S => ?_⟩
  · subst hD
    show equalFold (hexEncodeBytes _) (hexEncodeBytes _) = false
    exact equalFold_hexEncode (mem_sha256Bytes_lt _) (mem_sha256Bytes_lt _)
      fun hEq => hne hEq.symm
  · show (hexChars (sha256Bytes (strBytes S))).length = 64
    rw [hexChars_length, sha256Bytes_length]

set_option maxRecDepth 400000 in
/-- Witness for C2 at concrete secrets. -/
theorem spec_c2_password_diff_suppression_witness :
    passwordDiffSuppress (sha256Hex "secret") "secret" = true ∧
    passwordDiffSuppress (sha256Hex "secret") "other" = false ∧
    (sha256Hex "secret").length = 64 :=
  ⟨spec_c2_password_diff_suppression.1 "secret",
   spec_c2_password_diff_suppression.2.1 (sha256Hex "secret") "secret" "other" rfl
     (by decide),
   spec_c2_password_diff_suppression.2.2 "secret"⟩

/-- Claim C6: creating a helm spec template with source_type repository,
spec_path charts/app, repository_id 5 and version_ref main produces a
request file object with contentPath charts/app, contentRef main,
repository id 5 and no inline content key. -/
theorem spec_c6_repository_create_payload :
    (helmSpecTemplatePayload
      { id := "", name := "tmpl", source_type := "repository",
        spec_content := "", spec_path := "charts/app", repository_id := 5,
        version_ref := "main" }).file =
      { sourceType := "repository", content := none,
        contentPath := some "charts/app", contentRef := some "main",
        repository := some 5 } := by decide

/-- Claim C3: a remote 404 on delete is success for the helm spec
template (its id is left in place because the 404 branch returns before
the id is cleared) but an error for the workflow catalog item and the
Ansible Tower integration. -/
theorem spec_c3_delete_404_inconsistency (h : HelmState) (c : CatalogState)
    (i : IntegrationState) (e : String) :
    resourceHelmSpecTemplateDelete (helmFailClient (some 404) e) h = .ok h.id ∧
    resourceWorkflowCatalogItemDelete (catalogFailClient (some 404) e) c = .error e ∧
    resourceAnsibleTowerIntegrationDelete (integrationFailClient (some 404) e) i
      = .error e := by
  refine ⟨?_, ?_, ?_⟩ <;>
    simp [resourceHelmSpecTemplateDelete, resourceWorkflowCatalogItemDelete,
      resourceAnsibleTowerIntegrationDelete, helmFailClient, catalogFailClient,
      integrationFailClient]

lemma helmRead_fail_cases (h : HelmState) (e : String) (sc : Option Nat)
    (havail : h.id ≠ "" ∨ h.name ≠ "") (hsc : sc ≠ some 404) :
    resourceHelmSpecTemplateRead (helmFailClient (some 404) e) h = .ok { h with id := "" } ∧
    resourceHelmSpecTemplateRead (helmFailClient sc e) h = .error e := by
  unfold resourceHelmSpecTemplateRead
  by_cases hcond : h.id = "" ∧ h.name ≠ ""
  · simp [hcond, helmHandleResp, helmFailClient, hsc]
  · have hid : h.id ≠ "" := by
      rcases havail with hv | hv
      · exact hv
      · intro h0; exact hcond ⟨h0, hv⟩
    simp [hcond, hid, helmHandleResp, helmFailClient, hsc]

lemma catalogRead_fail_cases (c : CatalogState) (e : String) (sc : Option Nat)
    (havail : c.id ≠ "" ∨ c.name ≠ "") (hsc : sc ≠ some 404) :
    resourceWorkflowCatalogItemRead (catalogFailClient (some 404) e) c
      = .ok { c with id := "" } ∧
    resourceWorkflowCatalogItemRead (catalogFailClient sc e) c = .error e := by
  unfold resourceWorkflowCatalogItemRead
  by_cases hcond : c.id = "" ∧ c.name ≠ ""
  · simp [hcond, catalogHandleResp, catalogFailClient, hsc]
  · have hid : c.id ≠ "" := by
      rcases havail with hv | hv
      · exact hv
      · intro h0; exact hcond ⟨h0, hv⟩
    simp [hcond, hid, catalogHandleResp, catalogFailClient, hsc]

lemma integrationRead_fail_cases (i : IntegrationState) (e : String) (sc : Option Nat)
    (havail : i.id ≠ "" ∨ i.name ≠ "") (hsc : sc ≠ some 404) :
    resourceAnsibleTowerIntegrationRead (integrationFailClient (some 404) e) i
      = .ok { i with id := "" } ∧
    resourceAnsibleTowerIntegrationRead (integrationFailClient sc e) i = .error e := by
  unfold resourceAnsibleTowerIntegrationRead
  by_cases hcond : i.id = "" ∧ i.name ≠ ""
  · simp [hcond, integrationHandleResp, integrationFailClient, hsc]
  · have hid : i.id ≠ "" := by
      rcases havail with hv | hv
      · exact hv
      · intro h0; exact hcond ⟨h0, hv⟩
    simp [hcond, hid, integrationHandleResp, integrationFailClient, hsc]

/-- Claim C4: for every resource kind, a remote 404 on read succeeds and
clears the stored identifier (forcing recreation), while any non-404
remote failure is returned as an error. -/
theorem spec_c4_read_404_absent (h : HelmState) (c : CatalogState)
    (i : IntegrationState) (e : String) (sc : Option Nat)
    (hh : h.id ≠ "" ∨ h.name ≠ "") (hc : c.id ≠ "" ∨ c.name ≠ "")
    (hi : i.id ≠ "" ∨ i.name ≠ "") (hsc : sc ≠ some 404) :
    (resourceHelmSpecTemplateRead (helmFailClient (some 404) e) h
        = .ok { h with id := "" } ∧
      resourceHelmSpecTemplateRead (helmFailClient sc e) h = .error e) ∧
    (resourceWorkflowCatalogItemRead (catalogFailClient (some 404) e) c
        = .ok { c with id := "" } ∧
      resourceWorkflowCatalogItemRead (catalogFailClient sc e) c = .error e) ∧
    (resourceAnsibleTowerIntegrationRead (integrationFailClient (some 404) e) i
        = .ok { i with id := "" } ∧
      resourceAnsibleTowerIntegrationRead (integrationFailClient sc e) i = .error e) :=
  ⟨helmRead_fail_cases h e sc hh hsc, catalogRead_fail_cases c e sc hc hsc,
   integrationRead_fail_cases i e sc hi hsc⟩

/-- Witness for C4 at concrete states and a concrete 500 failure. -/
theorem spec_c4_read_404_absent_witness :
    (resourceHelmSpecTemplateRead (helmFailClient (some 404) "gone") exHelm
        = .ok { exHelm with id := "" } ∧
      resourceHelmSpecTemplateRead (helmFailClient (some 500) "boom") exHelm
        = .error "boom") ∧
    (resourceWorkflowCatalogItemRead (catalogFailClient (some 404) "gone") exCatalog
        = .ok { exCatalog with id := "" } ∧
      resourceWorkflowCatalogItemRead (catalogFailClient (some 500) "boom") exCatalog
        = .error "boom") ∧
    (resourceAnsibleTowerIntegrationRead (integrationFailClient (some 404) "gone")
        exIntegration = .ok { exIntegration with id := "" } ∧
      resourceAnsibleTowerIntegrationRead (integrationFailClient (some 500) "boom")
        exIntegration = .error "boom") := by
  have h404 := spec_c4_read_404_absent exHelm exCatalog exIntegration "gone"
    (some 500) (by decide) (by decide) (by decide) (by decide)
  have h500 := spec_c4_read_404_absent exHelm exCatalog exIntegration "boom"
    (some 500) (by decide) (by decide) (by decide) (by decide)
  exact ⟨⟨h404.1.1, h500.1.2⟩, ⟨h404.2.1.1, h500.2.1.2⟩, ⟨h404.2.2.1, h500.2.2.2⟩⟩

/-- Claim C8: for every resource kind, read looks up by identifier when
one is present, by name when the identifier is absent but a name is
present, and fails with the caller-contract diagnostic — independently
of any client call — when neither is present. -/
theorem spec_c8_read_dispatch (hc : HelmClient) (h : HelmState)
    (cc : CatalogClient) (c : CatalogState) (ic : IntegrationClient)
    (i : IntegrationState) :
    ((h.id ≠ "" →
        resourceHelmSpecTemplateRead hc h = helmHandleResp h (hc.getSpecTemplate h.id)) ∧
      (h.id = "" → h.name ≠ "" →
        resourceHelmSpecTemplateRead hc h
          = helmHandleResp h (hc.findSpecTemplateByName h.name)) ∧
      (h.id = "" → h.name = "" →
        resourceHelmSpecTemplateRead hc h
          = .error "Spec template cannot be read without name or id")) ∧
    ((c.id ≠ "" →
        resourceWorkflowCatalogItemRead cc c
          = catalogHandleResp c (cc.getCatalogItem c.id)) ∧
      (c.id = "" → c.name ≠ "" →
        resourceWorkflowCatalogItemRead cc c
          = catalogHandleResp c (cc.findCatalogItemByName c.name)) ∧
      (c.id = "" → c.name = "" →
        resourceWorkflowCatalogItemRead cc c
          = .error "Catalog Item cannot be read without name or id")) ∧
    ((i.id ≠ "" →
        resourceAnsibleTowerIntegrationRead ic i
          = integrationHandleResp i (ic.getIntegration i.id)) ∧
      (i.id = "" → i.name ≠ "" →
        resourceAnsibleTowerIntegrationRead ic i
          = integrationHandleResp i (ic.findIntegrationByName i.name)) ∧
      (i.id = "" → i.name = "" →
        resourceAnsibleTowerIntegrationRead ic i
          = .error "Integration cannot be read without name or id")) := by
  refine ⟨⟨fun h1 => ?_, fun h1 h2 => ?_, fun h1 h2 => ?_⟩,
    ⟨fun h1 => ?_, fun h1 h2 => ?_, fun h1 h2 => ?_⟩,
    ⟨fun h1 => ?_, fun h1 h2 => ?_, fun h1 h2 => ?_⟩⟩ <;>
    simp_all [resourceHelmSpecTemplateRead, resourceWorkflowCatalogItemRead,
      resourceAnsibleTowerIntegrationRead]

/-- Witness for C8 at concrete states (with id, with name only, with
neither) against a concrete client. -/
theorem spec_c8_read_dispatch_witness :
    (resourceHelmSpecTemplateRead (helmFailClient none "x") exHelm
        = helmHandleResp exHelm ((helmFailClient none "x").getSpecTemplate exHelm.id) ∧
      resourceHelmSpecTemplateRead (helmFailClient none "x") { exHelm with id := "" }
        = helmHandleResp { exHelm with id := "" }
            ((helmFailClient none "x").findSpecTemplateByName exHelm.name) ∧
      resourceHelmSpecTemplateRead (helmFailClient none "x")
          { exHelm with id := "", name := "" }
        = .error "Spec template cannot be read without name or id") ∧
    (resourceWorkflowCatalogItemRead (catalogFailClient none "x") exCatalog
        = catalogHandleResp exCatalog ((catalogFailClient none "x").getCatalogItem exCatalog.id) ∧
      resourceWorkflowCatalogItemRead (catalogFailClient none "x") { exCatalog with id := "" }
        = catalogHandleResp { exCatalog with id := "" }
            ((catalogFailClient none "x").findCatalogItemByName exCatalog.name) ∧
      resourceWorkflowCatalogItemRead (catalogFailClient none "x")
          { exCatalog with id := "", name := "" }
        = .error "Catalog Item cannot be read without name or id") ∧
    (resourceAnsibleTowerIntegrationRead (integrationFailClient none "x") exIntegration
        = integrationHandleResp exIntegration
            ((integrationFailClient none "x").getIntegration exIntegration.id) ∧
      resourceAnsibleTowerIntegrationRead (integrationFailClient none "x")
          { exIntegration with id := "" }
        = integrationHandleResp { exIntegration with id := "" }
            ((integrationFailClient none "x").findIntegrationByName exIntegration.name) ∧
      resourceAnsibleTowerIntegrationRead (integrationFailClient none "x")
          { exIntegration with id := "", name := "" }
        = .error "Integration cannot be read without name or id") := by
  refine ⟨⟨?_, ?_, ?_⟩, ⟨?_, ?_, ?_⟩, ⟨?_, ?_, ?_⟩⟩
  · exact (spec_c8_read_dispatch (helmFailClient none "x") exHelm
      (catalogFailClient none "x") exCatalog (integrationFailClient none "x")
      exIntegration).1.1 (by decide)
  · exact (spec_c8_read_dispatch (helmFailClient none "x") { exHelm with id := "" }
      (catalogFailClient none "x") exCatalog (integrationFailClient none "x")
      exIntegration).1.2.1 rfl (by decide)
  · exact (spec_c8_read_dispatch (helmFailClient none "x")
      { exHelm with id := "", name := "" } (catalogFailClient none "x") exCatalog
      (integrationFailClient none "x") exIntegration).1.2.2 rfl rfl
  · exact (spec_c8_read_dispatch (helmFailClient none "x") exHelm
      (catalogFailClient none "x") exCatalog (integrationFailClient none "x")
      exIntegration).2.1.1 (by decide)
  · exact (spec_c8_read_dispatch (helmFailClient none "x") exHelm
      (catalogFailClient none "x") { exCatalog with id := "" }
      (integrationFailClient none "x") exIntegration).2.1.2.1 rfl (by decide)
  · exact (spec_c8_read_dispatch (helmFailClient none "x") exHelm
      (catalogFailClient none "x") { exCatalog with id := "", name := "" }
      (integrationFailClient none "x") exIntegration).2.1.2.2 rfl rfl
  · exact (spec_c8_read_dispatch (helmFailClient none "x") exHelm
      (catalogFailClient none "x") exCatalog (integrationFailClient none "x")
      exIntegration).2.2.1 (by decide)
  · exact (spec_c8_read_dispatch (helmFailClient none "x") exHelm
      (catalogFailClient none "x") exCatalog (integrationFailClient none "x")
      { exIntegration with id := "" }).2.2.2.1 rfl (by decide)
  · exact (spec_c8_read_dispatch (helmFailClient none "x") exHelm
      (catalogFailClient none "x") exCatalog (integrationFailClient none "x")
      { exIntegration with id := "", name := "" }).2.2.2.2 rfl rfl

/-- Claim C10: on a successful integration read, a zero remote credential
id writes the remote username and the server-stored password hash into
username and password and leaves credential_id untouched; a nonzero
remote credential id writes only credential_id and leaves username and
password untouched. -/
theorem spec_c10_integration_read_credential_groups (st : IntegrationState)
    (r : IntegrationRemote) :
    (r.credentialId = 0 →
      (integrationReadApply st r).username = r.username ∧
      (integrationReadApply st r).password = r.passwordHash ∧
      (integrationReadApply st r).credential_id = st.credential_id) ∧
    (r.credentialId ≠ 0 →
      (integrationReadApply st r).username = st.username ∧
      (integrationReadApply st r).password = st.password ∧
      (integrationReadApply st r).credential_id = r.credentialId) := by
  constructor <;> intro hcid <;> simp [integrationReadApply, hcid]

/-- Witness for C10 at concrete remote entities with credential ids 0
and 7. -/
theorem spec_c10_integration_read_credential_groups_witness :
    ((integrationReadApply exIntegration
        { id := 3, name := "tower", enabled := true, url := "https://tower",
          username := "amy", passwordHash := "feed", credentialId := 0 }).username
        = "amy" ∧
      (integrationReadApply exIntegration
        { id := 3, name := "tower", enabled := true, url := "https://tower",
          username := "amy", passwordHash := "feed", credentialId := 0 }).password
        = "feed" ∧
      (integrationReadApply exIntegration
        { id := 3, name := "tower", enabled := true, url := "https://tower",
          username := "amy", passwordHash := "feed", credentialId := 0 }).credential_id
        = exIntegration.credential_id) ∧
    ((integrationReadApply exIntegration
        { id := 3, name := "tower", enabled := true, url := "https://tower",
          username := "amy", passwordHash := "feed", credentialId := 7 }).username
        = exIntegration.username ∧
      (integrationReadApply exIntegration
        { id := 3, name := "tower", enabled := true, url := "https://tower",
          username := "amy", passwordHash := "feed", credentialId := 7 }).password
        = exIntegration.password ∧
      (integrationReadApply exIntegration
        { id := 3, name := "tower", enabled := true, url := "https://tower",
          username := "amy", passwordHash := "feed", credentialId := 7 }).credential_id
        = 7) :=
  ⟨(spec_c10_integration_read_credential_groups exIntegration
      { id := 3, name := "tower", enabled := true, url := "https://tower",
        username := "amy", passwordHash := "feed", credentialId := 0 }).1 rfl,
   (spec_c10_integration_read_credential_groups exIntegration
      { id := 3, name := "tower", enabled := true, url := "https://tower",
        username := "amy", passwordHash := "feed", credentialId := 7 }).2 (by decide)⟩

/-- An Ansible Tower integration state referencing credential store
entry 5 (the conflicting inline username/password are unset). -/
def exTowerCred5 : IntegrationState :=
  { id := "", name := "tower", enabled := true, url := "https://tower",
    username := "", password := "", credential_id := 5 }

/-- Claim C5 is violated by the code: with a nonzero credential_id the
create body carries no credential sub-object at all (the source assigns
the built credential map into itself instead of into the integration
map), and no inline credentials either, while the update body built from
the same state does embed the credential reference. -/
theorem spec_c5_create_credential_dropped :
    (ansibleTowerCreatePayload exTowerCred5).credential = none ∧
    (ansibleTowerCreatePayload exTowerCred5).serviceUsername = none ∧
    (ansibleTowerCreatePayload exTowerCred5).servicePassword = none ∧
    (ansibleTowerUpdatePayload exTowerCred5 false false).credential
      = some { ctype := "username-password", cid := some 5 } := by
  decide

/-- A catalog client that creates with the given id, reads back the
given remote entity, and whose logo upload returns the given result. -/
def catalogUploadClient (newId : Int) (remote : CatalogRemote)
    (upload : ApiCall Unit) : CatalogClient :=
  { createCatalogItem := fun _ => .ok newId,
    getCatalogItem := fun _ => .ok remote,
    findCatalogItemByName := fun _ => .ok remote,
    updateCatalogItemLogo := fun _ _ => upload,
    deleteCatalogItem := fun _ => .ok () }

/-- Claim C9: when the primary catalog item create succeeds, the result
of the logo upload — including any failure — does not change the
outcome: the id is assigned and create returns success (the upload
result does not appear on the right-hand side). -/
theorem spec_c9_logo_upload_failure_tolerated (s : CatalogState)
    (fs : String → Except String (List Nat)) (newId : Int)
    (remote : CatalogRemote) (upload : ApiCall Unit) (pls : List FilePayload)
    (hb : catalogCreateFilePayloads fs s = .ok pls) (hn : s.name ≠ "") :
    resourceWorkflowCatalogItemCreate (catalogUploadClient newId remote upload) fs s
      = .ok (catalogReadApply { s with id := int64ToString newId } remote) := by
  unfold resourceWorkflowCatalogItemCreate
  simp only [catalogUploadClient, hb]
  unfold resourceWorkflowCatalogItemRead
  by_cases hid : int64ToString newId = ""
  · simp [hid, hn, catalogHandleResp]
  · simp [hid, hn, catalogHandleResp]

/-- Witness for C9: a concrete create whose logo upload fails with a
500 still succeeds and assigns the id. -/
theorem spec_c9_logo_upload_failure_tolerated_witness :
    resourceWorkflowCatalogItemCreate
        (catalogUploadClient 8 (catalogEcho 8 exCatalog) (.fail (some 500) "upload boom"))
        (fun _ => .ok []) exCatalog
      = .ok (catalogReadApply { exCatalog with id := int64ToString 8 }
          (catalogEcho 8 exCatalog)) :=
  spec_c9_logo_upload_failure_tolerated exCatalog (fun _ => .ok []) 8
    (catalogEcho 8 exCatalog) (.fail (some 500) "upload boom") [] rfl (by decide)

/-- Claim C7 is violated by the code: the Ansible Tower update omits the
inline username and password — non-attachment attributes — from the
request body when they are unchanged (exIntegration carries the nonzero
username bob, yet the body built with no detected change carries no
serviceUsername or servicePassword key). -/
theorem spec_c7_update_not_full_counterexample :
    exIntegration.username = "bob" ∧ exIntegration.password = "pw" ∧
    (ansibleTowerUpdatePayload exIntegration false false).serviceUsername = none ∧
    (ansibleTowerUpdatePayload exIntegration false false).servicePassword = none := by
  decide

/-- Claim C7 as amended: the workflow catalog item update resends every
attribute unconditionally (its body is the create body minus the
create-only iconPath constant), the Ansible Tower update always resends
name, enabled and url but sends the inline username and password only
when the corresponding attribute changed, and logo attachments are
re-uploaded exactly when the attachment path or name changed. -/
theorem spec_c7_update_full_payload_except_inline_secrets
    (c : CatalogState) (s : IntegrationState) (hu hp : Bool)
    (fs : String → Except String (List Nat)) (bytes : List Nat)
    (hcred : s.credential_id = 0) :
    catalogItemUpdatePayload c = { catalogItemCreatePayload c with iconPath := none } ∧
    (ansibleTowerUpdatePayload s hu hp).name = s.name ∧
    (ansibleTowerUpdatePayload s hu hp).enabled = s.enabled ∧
    (ansibleTowerUpdatePayload s hu hp).serviceUrl = s.url ∧
    (ansibleTowerUpdatePayload s hu hp).serviceUsername
      = (if hu then some s.username else none) ∧
    (ansibleTowerUpdatePayload s hu hp).servicePassword
      = (if hp then some s.password else none) ∧
    catalogUpdateFilePayloads fs c false false false false = .ok [] ∧
    catalogUpdateFilePayloads (fun _ => .ok bytes) c true false false false
      = .ok [⟨"logo", c.logo_image_name, bytes⟩] := by
  refine ⟨?_, ?_, ?_, ?_, ?_, ?_, ?_, ?_⟩ <;>
    simp [catalogItemUpdatePayload, catalogItemCreatePayload,
      ansibleTowerUpdatePayload, catalogUpdateFilePayloads, hcred]

/-- Witness for the amended C7 at concrete states. -/
theorem spec_c7_update_full_payload_except_inline_secrets_witness :
    catalogItemUpdatePayload exCatalog
      = { catalogItemCreatePayload exCatalog with iconPath := none } ∧
    (ansibleTowerUpdatePayload exIntegration true false).name = exIntegration.name ∧
    (ansibleTowerUpdatePayload exIntegration true false).enabled = exIntegration.enabled ∧
    (ansibleTowerUpdatePayload exIntegration true false).serviceUrl = exIntegration.url ∧
    (ansibleTowerUpdatePayload exIntegration true false).serviceUsername
      = (if true then some exIntegration.username else none) ∧
    (ansibleTowerUpdatePayload exIntegration true false).servicePassword
      = (if false then some exIntegration.password else none) ∧
    catalogUpdateFilePayloads (fun _ => .error "no file") exCatalog false false false false
      = .ok [] ∧
    catalogUpdateFilePayloads (fun _ => .ok [1, 2]) exCatalog true false false false
      = .ok [⟨"logo", exCatalog.logo_image_name, [1, 2]⟩] :=
  spec_c7_update_full_payload_except_inline_secrets exCatalog exIntegration true false
    (fun _ => .error "no file") [1, 2] rfl

/-- The observed helm spec template state after create-then-read against
the faithful echo server. -/
def helmObserved (rid : Int) (gm : Bool) (s : HelmState) : HelmState :=
  helmReadApply { s with id := int64ToString rid } (helmEcho rid gm s)

/-- The observed catalog item state after create-then-read against the
faithful echo server. -/
def catalogObserved (rid : Int) (c : CatalogState) : CatalogState :=
  catalogReadApply { c with id := int64ToString rid } (catalogEcho rid c)

/-- The observed integration state after create-then-read against the
faithful echo server. -/
def integrationObserved (rid : Int) (s : IntegrationState) : IntegrationState :=
  integrationReadApply { s with id := int64ToString rid } (integrationEcho rid s)

set_option maxRecDepth 400000 in
/-- Claim C1 is violated at the Ansible Tower integration: create with
desired password pw against the faithful server (which stores the secret
as its digest) followed by the read of the assigned identifier yields an
observed password — a user-settable, non-computed field — different from
the desired plaintext. -/
theorem spec_c1_roundtrip_counterexample :
    resourceAnsibleTowerIntegrationCreate (integrationEchoClient 3 exIntegration)
        exIntegration = .ok (integrationObserved 3 exIntegration) ∧
    (integrationObserved 3 exIntegration).password ≠ exIntegration.password := by
  constructor
  · decide
  · decide

lemma helm_roundtrip_echo (h : HelmState) (rid : Int) (gm : Bool)
    (hsrc : h.source_type = "local" ∨ h.source_type = "url" ∨
      h.source_type = "repository")
    (hid : int64ToString rid ≠ "") :
    resourceHelmSpecTemplateCreate (helmEchoClient rid gm h) h
      = .ok (helmObserved rid gm h) ∧
    (helmObserved rid gm h).name = h.name ∧
    (helmObserved rid gm h).source_type = h.source_type ∧
    (helmObserved rid gm h).spec_content = h.spec_content ∧
    (helmObserved rid gm h).spec_path = h.spec_path ∧
    (helmObserved rid gm h).repository_id = h.repository_id ∧
    (helmObserved rid gm h).version_ref = h.version_ref := by
  have hcreate : resourceHelmSpecTemplateCreate (helmEchoClient rid gm h) h
      = .ok (helmObserved rid gm h) := by
    simp [resourceHelmSpecTemplateCreate, resourceHelmSpecTemplateRead,
      helmEchoClient, helmHandleResp, helmObserved, hid]
  refine ⟨hcreate, ?_⟩
  rcases hsrc with hs | hs | hs <;>
    cases gm <;>
      simp [helmObserved, helmReadApply, helmEcho, helmSpecTemplatePayload, hs]

lemma catalogCreateFilePayloads_ok (bytes : List Nat) (s : CatalogState) :
    ∃ pls, catalogCreateFilePayloads (fun _ => .ok bytes) s = .ok pls := by
  unfold catalogCreateFilePayloads
  by_cases h1 : s.logo_image_path ≠ "" ∧ s.logo_image_name ≠ "" <;>
    by_cases h2 : s.dark_logo_image_path ≠ "" ∧ s.dark_logo_image_name ≠ "" <;>
      simp [h1, h2]

lemma catalog_roundtrip_echo (c : CatalogState) (rid : Int)
    (hid : int64ToString rid ≠ "") (hform : 0 ≤ c.form_id) :
    resourceWorkflowCatalogItemCreate (catalogEchoClient rid c) (fun _ => .ok []) c
      = .ok (catalogObserved rid c) ∧
    (catalogObserved rid c).name = c.name ∧
    (catalogObserved rid c).enabled = c.enabled ∧
    (catalogObserved rid c).workflow_id = c.workflow_id ∧
    (catalogObserved rid c).visibility = c.visibility ∧
    (catalogObserved rid c).form_id = c.form_id := by
  obtain ⟨pls, hpls⟩ := catalogCreateFilePayloads_ok [] c
  have hcreate : resourceWorkflowCatalogItemCreate (catalogEchoClient rid c)
      (fun _ => .ok []) c = .ok (catalogObserved rid c) := by
    simp [resourceWorkflowCatalogItemCreate, resourceWorkflowCatalogItemRead,
      catalogEchoClient, catalogHandleResp, catalogObserved, hid, hpls]
  refine ⟨hcreate, ?_, ?_, ?_, ?_, ?_⟩ <;>
    simp [catalogObserved, catalogReadApply, catalogEcho, catalogItemCreatePayload]
  by_cases hf : c.form_id > 0
  · simp [hf]
  · simp [hf]; omega

lemma integration_roundtrip_echo (s : IntegrationState) (rid : Int)
    (hid : int64ToString rid ≠ "") (hcred : s.credential_id = 0) :
    resourceAnsibleTowerIntegrationCreate (integrationEchoClient rid s) s
      = .ok (integrationObserved rid s) ∧
    (integrationObserved rid s).name = s.name ∧
    (integrationObserved rid s).enabled = s.enabled ∧
    (integrationObserved rid s).url = s.url ∧
    (integrationObserved rid s).username = s.username ∧
    (integrationObserved rid s).credential_id = s.credential_id ∧
    (integrationObserved rid s).password = sha256Hex s.password := by
  have hcreate : resourceAnsibleTowerIntegrationCreate (integrationEchoClient rid s) s
      = .ok (integrationObserved rid s) := by
    simp [resourceAnsibleTowerIntegrationCreate, resourceAnsibleTowerIntegrationRead,
      integrationEchoClient, integrationHandleResp, integrationObserved, hid]
  refine ⟨hcreate, ?_⟩
  simp [integrationObserved, integrationReadApply, integrationEcho,
    ansibleTowerCreatePayload, hcred]

/-- Claim C1 as amended: against a faithful server, create-then-read
round-trips every user-settable helm spec template field for each
source_type value (whether or not the server renames repository to git),
round-trips the catalog item fields that are not marked computed (name,
enabled, workflow_id, visibility and a nonnegative form_id), and for the
Ansible Tower integration with inline credentials round-trips name,
enabled, url, username and credential_id — but the password reads back
as the server-stored SHA-256 hex digest of the plaintext, not the
plaintext (and the credential-reference case is excluded: its create
request drops the credential, see the C5 defect). -/
theorem spec_c1_roundtrip_amended (h : HelmState) (c : CatalogState)
    (s : IntegrationState) (hid cid iid : Int) (gm : Bool)
    (hsrc : h.source_type = "local" ∨ h.source_type = "url" ∨
      h.source_type = "repository")
    (hh : int64ToString hid ≠ "") (hc : int64ToString cid ≠ "")
    (hi : int64ToString iid ≠ "") (hform : 0 ≤ c.form_id)
    (hcred : s.credential_id = 0) :
    (resourceHelmSpecTemplateCreate (helmEchoClient hid gm h) h
        = .ok (helmObserved hid gm h) ∧
      (helmObserved hid gm h).name = h.name ∧
      (helmObserved hid gm h).source_type = h.source_type ∧
      (helmObserved hid gm h).spec_content = h.spec_content ∧
      (helmObserved hid gm h).spec_path = h.spec_path ∧
      (helmObserved hid gm h).repository_id = h.repository_id ∧
      (helmObserved hid gm h).version_ref = h.version_ref) ∧
    (resourceWorkflowCatalogItemCreate (catalogEchoClient cid c) (fun _ => .ok []) c
        = .ok (catalogObserved cid c) ∧
      (catalogObserved cid c).name = c.name ∧
      (catalogObserved cid c).enabled = c.enabled ∧
      (catalogObserved cid c).workflow_id = c.workflow_id ∧
      (catalogObserved cid c).visibility = c.visibility ∧
      (catalogObserved cid c).form_id = c.form_id) ∧
    (resourceAnsibleTowerIntegrationCreate (integrationEchoClient iid s) s
        = .ok (integrationObserved iid s) ∧
      (integrationObserved iid s).name = s.name ∧
      (integrationObserved iid s).enabled = s.enabled ∧
      (integrationObserved iid s).url = s.url ∧
      (integrationObserved iid s).username = s.username ∧
      (integrationObserved iid s).credential_id = s.credential_id ∧
      (integrationObserved iid s).password = sha256Hex s.password) :=
  ⟨helm_roundtrip_echo h hid gm hsrc hh,
   catalog_roundtrip_echo c cid hc hform,
   integration_roundtrip_echo s iid hi hcred⟩

/-- Witness for the amended C1 at concrete states with each source_type
exercised through the local one. -/
theorem spec_c1_roundtrip_amended_witness :
    (resourceHelmSpecTemplateCreate (helmEchoClient 7 false exHelm) exHelm
        = .ok (helmObserved 7 false exHelm) ∧
      (helmObserved 7 false exHelm).name = exHelm.name ∧
      (helmObserved 7 false exHelm).source_type = exHelm.source_type ∧
      (helmObserved 7 false exHelm).spec_content = exHelm.spec_content ∧
      (helmObserved 7 false exHelm).spec_path = exHelm.spec_path ∧
      (helmObserved 7 false exHelm).repository_id = exHelm.repository_id ∧
      (helmObserved 7 false exHelm).version_ref = exHelm.version_ref) ∧
    (resourceWorkflowCatalogItemCreate (catalogEchoClient 8 exCatalog)
        (fun _ => .ok []) exCatalog = .ok (catalogObserved 8 exCatalog) ∧
      (catalogObserved 8 exCatalog).name = exCatalog.name ∧
      (catalogObserved 8 exCatalog).enabled = exCatalog.enabled ∧
      (catalogObserved 8 exCatalog).workflow_id = exCatalog.workflow_id ∧
      (catalogObserved 8 exCatalog).visibility = exCatalog.visibility ∧
      (catalogObserved 8 exCatalog).form_id = exCatalog.form_id) ∧
    (resourceAnsibleTowerIntegrationCreate (integrationEchoClient 9 exIntegration)
        exIntegration = .ok (integrationObserved 9 exIntegration) ∧
      (integrationObserved 9 exIntegration).name = exIntegration.name ∧
      (integrationObserved 9 exIntegration).enabled = exIntegration.enabled ∧
      (integrationObserved 9 exIntegration).url = exIntegration.url ∧
      (integrationObserved 9 exIntegration).username = exIntegration.username ∧
      (integrationObserved 9 exIntegration).credential_id = exIntegration.credential_id ∧
      (integrationObserved 9 exIntegration).password = sha256Hex exIntegration.password) :=
  spec_c1_roundtrip_amended exHelm exCatalog exIntegration 7 8 9 false
    (Or.inl rfl) (by decide) (by decide) (by decide) (by decide) rfl
